import Mathlib

/-!
Verification of the engine-selection core of the firecrawl scraping
orchestrator, embedded shallowly from
`apps/api/src/scraper/scrapeURL/engines/index.ts`,
`apps/api/src/scraper/scrapeURL/engines/playwright/index.ts` and
`apps/playwright-service-ts/src/services/ScrapeService.ts`.
-/

namespace Firecrawl

/-- Feature flags a scrape request may require, mirroring the
`featureFlags` array of `engines/index.ts` (the flag written
`screenshot@fullScreen` in the source is `screenshotFullScreen` here). -/
inductive FeatureFlag where
  | actions
  | waitFor
  | screenshot
  | screenshotFullScreen
  | pdf
  | docx
  | atsv
  | location
  | mobile
  | skipTlsVerification
  | useFastMode
  | stealthProxy
  | disableAdblock
deriving DecidableEq, Repr

/-- Canonical enumeration of all feature flags, in the order of the
`featureFlags` array in the source. -/
def allFlags : List FeatureFlag :=
  [.actions, .waitFor, .screenshot, .screenshotFullScreen, .pdf, .docx,
   .atsv, .location, .mobile, .skipTlsVerification, .useFastMode,
   .stealthProxy, .disableAdblock]

/-- Priority weight of each feature flag, per `featureFlagOptions`. -/
def priority : FeatureFlag → Nat
  | .actions => 20
  | .waitFor => 1
  | .screenshot => 10
  | .screenshotFullScreen => 10
  | .pdf => 100
  | .docx => 100
  | .atsv => 90
  | .useFastMode => 90
  | .location => 10
  | .mobile => 10
  | .skipTlsVerification => 10
  | .stealthProxy => 20
  | .disableAdblock => 10

/-- The closed enumeration of scraping engines, per the `Engine` union type
in `engines/index.ts` (semicolons and parentheses of the string-literal
names are rendered into camel case). -/
inductive Engine where
  | fireEngineChromeCdp
  | fireEngineRetryChromeCdp
  | fireEngineChromeCdpStealth
  | fireEngineRetryChromeCdpStealth
  | fireEnginePlaywright
  | fireEnginePlaywrightStealth
  | fireEngineTlsclient
  | fireEngineTlsclientStealth
  | playwright
  | fetch
  | pdf
  | docx
  | index
  | indexDocuments
deriving DecidableEq, Repr

/-- Boolean support matrix of one engine over the feature flags, mirroring
the per-engine `features` object of `engineOptions`. -/
structure EngineFeatures where
  actions : Bool
  waitFor : Bool
  screenshot : Bool
  screenshotFullScreen : Bool
  pdf : Bool
  docx : Bool
  atsv : Bool
  location : Bool
  mobile : Bool
  skipTlsVerification : Bool
  useFastMode : Bool
  stealthProxy : Bool
  disableAdblock : Bool

/-- Field lookup of the support matrix by feature flag. -/
def EngineFeatures.supports (fs : EngineFeatures) : FeatureFlag → Bool
  | .actions => fs.actions
  | .waitFor => fs.waitFor
  | .screenshot => fs.screenshot
  | .screenshotFullScreen => fs.screenshotFullScreen
  | .pdf => fs.pdf
  | .docx => fs.docx
  | .atsv => fs.atsv
  | .location => fs.location
  | .mobile => fs.mobile
  | .skipTlsVerification => fs.skipTlsVerification
  | .useFastMode => fs.useFastMode
  | .stealthProxy => fs.stealthProxy
  | .disableAdblock => fs.disableAdblock

/-- Registry of per-engine feature support, transcribed from `engineOptions`
in `engines/index.ts` (fields in declaration order of `EngineFeatures`). -/
def engineFeatures : Engine → EngineFeatures
  | .index =>
    { actions := false, waitFor := true, screenshot := true,
      screenshotFullScreen := true, pdf := false, docx := false,
      atsv := false, location := true, mobile := true,
      skipTlsVerification := true, useFastMode := true,
      stealthProxy := false, disableAdblock := true }
  | .fireEngineChromeCdp =>
    { actions := true, waitFor := true, screenshot := true,
      screenshotFullScreen := true, pdf := false, docx := false,
      atsv := false, location := true, mobile := true,
      skipTlsVerification := true, useFastMode := false,
      stealthProxy := false, disableAdblock := false }
  | .fireEngineRetryChromeCdp =>
    { actions := true, waitFor := true, screenshot := true,
      screenshotFullScreen := true, pdf := false, docx := false,
      atsv := false, location := true, mobile := true,
      skipTlsVerification := true, useFastMode := false,
      stealthProxy := false, disableAdblock := false }
  | .indexDocuments =>
    { actions := false, waitFor := true, screenshot := true,
      screenshotFullScreen := true, pdf := true, docx := true,
      atsv := false, location := true, mobile := true,
      skipTlsVerification := true, useFastMode := true,
      stealthProxy := false, disableAdblock := false }
  | .fireEngineChromeCdpStealth =>
    { actions := true, waitFor := true, screenshot := true,
      screenshotFullScreen := true, pdf := false, docx := false,
      atsv := false, location := true, mobile := true,
      skipTlsVerification := true, useFastMode := false,
      stealthProxy := true, disableAdblock := false }
  | .fireEngineRetryChromeCdpStealth =>
    { actions := true, waitFor := true, screenshot := true,
      screenshotFullScreen := true, pdf := false, docx := false,
      atsv := false, location := true, mobile := true,
      skipTlsVerification := true, useFastMode := false,
      stealthProxy := true, disableAdblock := false }
  | .fireEnginePlaywright =>
    { actions := false, waitFor := true, screenshot := true,
      screenshotFullScreen := true, pdf := false, docx := false,
      atsv := false, location := false, mobile := false,
      skipTlsVerification := false, useFastMode := false,
      stealthProxy := false, disableAdblock := true }
  | .fireEnginePlaywrightStealth =>
    { actions := false, waitFor := true, screenshot := true,
      screenshotFullScreen := true, pdf := false, docx := false,
      atsv := false, location := false, mobile := false,
      skipTlsVerification := false, useFastMode := false,
      stealthProxy := true, disableAdblock := true }
  | .playwright =>
    { actions := true, waitFor := true, screenshot := true,
      screenshotFullScreen := true, pdf := false, docx := false,
      atsv := false, location := false, mobile := false,
      skipTlsVerification := true, useFastMode := false,
      stealthProxy := false, disableAdblock := false }
  | .fireEngineTlsclient =>
    { actions := false, waitFor := false, screenshot := false,
      screenshotFullScreen := false, pdf := false, docx := false,
      atsv := true, location := true, mobile := false,
      skipTlsVerification := true, useFastMode := true,
      stealthProxy := false, disableAdblock := false }
  | .fireEngineTlsclientStealth =>
    { actions := false, waitFor := false, screenshot := false,
      screenshotFullScreen := false, pdf := false, docx := false,
      atsv := true, location := true, mobile := false,
      skipTlsVerification := true, useFastMode := true,
      stealthProxy := true, disableAdblock := false }
  | .fetch =>
    { actions := false, waitFor := false, screenshot := false,
      screenshotFullScreen := false, pdf := false, docx := false,
      atsv := false, location := false, mobile := false,
      skipTlsVerification := true, useFastMode := true,
      stealthProxy := false, disableAdblock := false }
  | .pdf =>
    { actions := false, waitFor := false, screenshot := false,
      screenshotFullScreen := false, pdf := true, docx := false,
      atsv := false, location := false, mobile := false,
      skipTlsVerification := false, useFastMode := true,
      stealthProxy := true, disableAdblock := true }
  | .docx =>
    { actions := false, waitFor := false, screenshot := false,
      screenshotFullScreen := false, pdf := false, docx := true,
      atsv := false, location := false, mobile := false,
      skipTlsVerification := false, useFastMode := true,
      stealthProxy := true, disableAdblock := true }

/-- Whether an engine supports a feature flag. -/
def engineSupports (e : Engine) (f : FeatureFlag) : Bool :=
  (engineFeatures e).supports f

/-- Static quality score of each engine, per `engineOptions` (negative
qualities mark specialty engines). -/
def engineQuality : Engine → Int
  | .index => 1000
  | .fireEngineChromeCdp => 50
  | .fireEngineRetryChromeCdp => 45
  | .indexDocuments => -1
  | .fireEngineChromeCdpStealth => -2
  | .fireEngineRetryChromeCdpStealth => -5
  | .fireEnginePlaywright => 40
  | .fireEnginePlaywrightStealth => -10
  | .playwright => 20
  | .fireEngineTlsclient => 10
  | .fireEngineTlsclientStealth => -15
  | .fetch => 5
  | .pdf => -20
  | .docx => -20

/-- A request's set of required feature flags (the `meta.featureFlags` set),
represented by its characteristic function. -/
def FlagSet : Type := FeatureFlag → Bool

/-- Sum of the priority weights of all required flags (the `prioritySum`
accumulation in `buildFallbackList`). -/
def prioritySum (flags : FlagSet) : Nat :=
  ((allFlags.filter flags).map priority).sum

/-- The eligibility threshold: the floor of half the weighted priority sum
(`Math.floor(prioritySum / 2)`; natural division is the floor). -/
def priorityThreshold (flags : FlagSet) : Nat :=
  prioritySum flags / 2

/-- Weighted support score of an engine for the required flags: the sum of
the weights of exactly those required flags the engine supports
(the `supportScore` computation in `buildFallbackList`). -/
def supportScore (e : Engine) (flags : FlagSet) : Nat :=
  ((allFlags.filter (fun f => flags f && engineSupports e f)).map priority).sum

/-- The required flags the engine does not support (`unsupportedFeatures`
in `buildFallbackList`: the required set minus the supported set), listed
in the canonical flag order. -/
def unsupportedFeatures (e : Engine) (flags : FlagSet) : List FeatureFlag :=
  allFlags.filter (fun f => flags f && !(engineSupports e f))

/-- One entry of the fallback list: an engine, its support score and its
unsupported required features. -/
structure Candidate where
  engine : Engine
  supportScore : Nat
  unsupportedFeatures : List FeatureFlag
deriving DecidableEq, Repr

/-- Build the candidate record for one engine. -/
def mkCandidate (flags : FlagSet) (e : Engine) : Candidate :=
  ⟨e, supportScore e flags, unsupportedFeatures e flags⟩

/-- Threshold filtering loop of `buildFallbackList`: each engine of the
candidate source is kept, in order, exactly when its support score meets
the priority threshold. -/
def selectEligible (flags : FlagSet) (engines : List Engine) : List Candidate :=
  engines.filterMap (fun e =>
    if priorityThreshold flags ≤ supportScore e flags then
      some (mkCandidate flags e)
    else none)

/-- Positive-quality dominance rule of `buildFallbackList`: when some
selected engine has positive quality, engines of non-positive quality are
dropped. -/
def applyQualityDominance (cands : List Candidate) : List Candidate :=
  if cands.any (fun c => 0 < engineQuality c.engine) then
    cands.filter (fun c => 0 < engineQuality c.engine)
  else cands

/-- Candidate source of the ranking loop: the forced engine list when one
is supplied (`meta.internalOptions.forceEngine`, with a single forced
engine modelled as a singleton list), else the configured engine list. -/
def currentEngines (engines : List Engine) (force : Option (List Engine)) :
    List Engine :=
  match force with
  | some forced => forced
  | none => engines

/-- Comparator of the final sort of `buildFallbackList`: a candidate sorts
no later than another when it has the strictly greater support score, or
equal support score and no smaller quality. This is the JavaScript
comparator `b.supportScore - a.supportScore || quality(b) - quality(a)`
read as a total preorder. -/
def candKeyGE (a b : Candidate) : Prop :=
  b.supportScore < a.supportScore ∨
    (a.supportScore = b.supportScore ∧
      engineQuality b.engine ≤ engineQuality a.engine)

instance : DecidableRel candKeyGE := fun a b =>
  inferInstanceAs (Decidable (b.supportScore < a.supportScore ∨
    (a.supportScore = b.supportScore ∧
      engineQuality b.engine ≤ engineQuality a.engine)))

instance : IsTotal Candidate candKeyGE :=
  ⟨fun a b => by unfold candKeyGE; omega⟩

instance : IsTrans Candidate candKeyGE :=
  ⟨fun a b c h1 h2 => by unfold candKeyGE at h1 h2 ⊢; omega⟩

/-- The ranking core of `buildFallbackList` in `engines/index.ts`: from the
required flags, the configured engine list (the `_engines` value, whose
environment-dependent construction is taken as an input here) and the
optional forced engine list, it filters by the support-score threshold,
applies the positive-quality dominance rule, and sorts the result stably
by the comparator unless a forced list was supplied. JavaScript's
`Array.prototype.sort` is a stable sort; since the comparator is total and
transitive, a stable sort's output is unique and is modelled here by the
stable `List.insertionSort`. -/
def buildFallbackList (flags : FlagSet) (engines : List Engine)
    (force : Option (List Engine)) : List Candidate :=
  let selected :=
    applyQualityDominance (selectEligible flags (currentEngines engines force))
  match force with
  | none => selected.insertionSort candKeyGE
  | some _ => selected

/-- The empty required-flag set. -/
def emptyFlags : FlagSet := fun _ => false

/-- Required-flag set containing exactly the pdf flag. -/
def pdfOnly : FlagSet := fun f => f == .pdf

/-- Required-flag set containing exactly the waitFor flag. -/
def waitForOnly : FlagSet := fun f => f == .waitFor

/-- Required-flag set containing exactly the actions and pdf flags. -/
def actionsPdfFlags : FlagSet := fun f => f == .actions || f == .pdf

/-- Request data relevant to usual max-reasonable-time functions: the
caller's optional post-load wait duration (`meta.options.waitFor`). -/
structure MRTMeta where
  waitFor : Option Nat
deriving DecidableEq, Repr

/-- Max reasonable time of the playwright engine
(`playwrightMaxReasonableTime` in `engines/playwright/index.ts`): the
requested post-load wait (0 when absent) plus 30000 ms. -/
def playwrightMaxReasonableTime (meta : MRTMeta) : Nat :=
  meta.waitFor.getD 0 + 30000

/-- Outcome of the MRT dispatch: the returned duration, and whether the
missing-MRT warning (`meta.logger.warn`) was emitted. -/
structure MRTResult where
  value : Nat
  warnedNoMRT : Bool
deriving DecidableEq, Repr

/-- MRT dispatch of `getEngineMaxReasonableTime` in `engines/index.ts`: look
the engine up in the MRT registry; when no function is registered, warn and
return the conservative 30000 ms fallback, otherwise apply the registered
function to the request. The registry record `engineMRTs` is passed as a
parameter here: of its entries only the playwright one
(`playwrightMaxReasonableTime`) is among the embedded source files. -/
def getEngineMaxReasonableTime (engineMRTs : Engine → Option (MRTMeta → Nat))
    (meta : MRTMeta) (engine : Engine) : MRTResult :=
  match engineMRTs engine with
  | none => ⟨30000, true⟩
  | some mrt => ⟨mrt meta, false⟩

/-- An MRT registry binding only the playwright engine, used to exercise
both branches of the dispatch. -/
def pwOnlyMRTs : Engine → Option (MRTMeta → Nat)
  | .playwright => some playwrightMaxReasonableTime
  | _ => none

/-- Result of one page-load strategy inside the playwright microservice
(`scrapePage` in `ScrapeService.ts`): page content, the HTTP status of the
main response when one was obtained (`null` otherwise), and the detected
content type. -/
structure PageResult where
  content : String
  status : Option Int
  contentType : Option String

/-- Modelled from the spec: the `getError` helper of the playwright
microservice (`helpers/get_error`, not among the embedded sources) renders
the reason a page is considered failed — e.g. a non-200 status, or no
response at all — as a non-empty human-readable error string. -/
def getError : Option Int → String
  | none => "No response received"
  | some 401 => "Unauthorized"
  | some 403 => "Forbidden"
  | some 404 => "Not Found"
  | some 500 => "Internal Server Error"
  | some _ => "Request failed with a non-OK status code"

/-- Response body produced by `ScrapeService.scrape` (and the matching
route of the legacy single-file service): content, status code, content
type, and the optional page error. -/
structure ScrapeServiceResult where
  content : String
  pageStatusCode : Option Int
  contentType : Option String
  pageError : Option String
deriving Repr

/-- Tail of `ScrapeService.scrape`: computes
`pageError = status !== 200 ? getError(status) : undefined` and builds the
response object, whose truthiness-guarded spread of `pageError` includes
the field only when the error string is present and non-empty. -/
def finalizeScrapeResult (result : PageResult) : ScrapeServiceResult :=
  let pageError : Option String :=
    if result.status ≠ some 200 then some (getError result.status) else none
  { content := result.content,
    pageStatusCode := result.status,
    contentType := result.contentType,
    pageError := match pageError with
      | some s => if s.isEmpty then none else some s
      | none => none }

/-- Scrape options relevant to the playwright engine adapter, a projection
of the api `Meta` value used by `scrapeURLWithPlaywright`. -/
structure PlaywrightMeta where
  url : String
  rewrittenUrl : Option String
  waitFor : Option Nat
  headers : Option (List (String × String))
  skipTlsVerification : Option Bool
  screenshotRequested : Bool
  fullPageScreenshot : Option Bool
  featureFlags : FlagSet
  scrapeTimeout : Option Nat

/-- Request body sent to the playwright microservice
(`PlaywrightScrapeRequestCommon`). -/
structure PlaywrightScrapeRequest where
  url : String
  wait_after_load : Option Nat
  timeout : Option Nat
  headers : Option (List (String × String))
  skip_tls_verification : Option Bool
  screenshot : Bool
  fullPageScreenshot : Option Bool
  mobileProxy : Bool

/-- Request construction of `scrapeURLWithPlaywright`: note that the
`stealthProxy` feature flag is forwarded as the `mobileProxy` option. -/
def buildPlaywrightRequest (meta : PlaywrightMeta) : PlaywrightScrapeRequest :=
  { url := meta.rewrittenUrl.getD meta.url,
    wait_after_load := meta.waitFor,
    timeout := meta.scrapeTimeout,
    headers := meta.headers,
    skip_tls_verification := meta.skipTlsVerification,
    screenshot := meta.screenshotRequested,
    fullPageScreenshot := meta.fullPageScreenshot,
    mobileProxy := meta.featureFlags FeatureFlag.stealthProxy }

/-- Validated response of the playwright microservice
(`playwrightResponseSchema`), restricted to the fields the adapter maps
into its result. -/
structure PlaywrightScrapeResponse where
  content : String
  pageStatusCode : Int
  pageError : Option String
  contentType : Option String
  url : Option String

/-- Proxy tier reported in an engine result (`proxyUsed`). -/
inductive ProxyTier where
  | basic
  | stealth
deriving DecidableEq, Repr

/-- Normalized engine result (`EngineScrapeResult`), restricted to the
fields the playwright adapter produces. -/
structure EngineScrapeResult where
  url : String
  html : String
  statusCode : Int
  error : Option String
  contentType : Option String
  proxyUsed : ProxyTier

/-- Result mapping of `scrapeURLWithPlaywright` in
`engines/playwright/index.ts`: given the microservice response, build the
normalized engine result; `proxyUsed` is the literal `basic`. -/
def scrapeURLWithPlaywright (meta : PlaywrightMeta)
    (response : PlaywrightScrapeResponse) : EngineScrapeResult :=
  { url := response.url.getD (meta.rewrittenUrl.getD meta.url),
    html := response.content,
    statusCode := response.pageStatusCode,
    error := response.pageError,
    contentType := response.contentType,
    proxyUsed := .basic }

/-! ### Helper lemmas about the ranking pipeline -/

theorem mem_allFlags (f : FeatureFlag) : f ∈ allFlags := by
  cases f <;> simp [allFlags]

theorem mem_selectEligible {flags : FlagSet} {engines : List Engine}
    {c : Candidate} :
    c ∈ selectEligible flags engines ↔
      ∃ e ∈ engines, priorityThreshold flags ≤ supportScore e flags ∧
        c = mkCandidate flags e := by
  simp only [selectEligible, List.mem_filterMap]
  constructor
  · rintro ⟨e, he, hsome⟩
    split at hsome
    · exact ⟨e, he, ‹_›, (Option.some.inj hsome).symm⟩
    · cases hsome
  · rintro ⟨e, he, hthr, rfl⟩
    exact ⟨e, he, by rw [if_pos hthr]⟩

theorem sublist_applyQualityDominance (l : List Candidate) :
    (applyQualityDominance l).Sublist l := by
  unfold applyQualityDominance
  split
  · exact List.filter_sublist l
  · exact List.Sublist.refl l

theorem mem_applyQualityDominance {l : List Candidate} {c : Candidate}
    (hc : c ∈ applyQualityDominance l) : c ∈ l :=
  (sublist_applyQualityDominance l).subset hc

theorem mem_buildFallbackList {flags : FlagSet} {engines : List Engine}
    {force : Option (List Engine)} {c : Candidate}
    (hc : c ∈ buildFallbackList flags engines force) :
    c ∈ applyQualityDominance
      (selectEligible flags (currentEngines engines force)) := by
  cases force with
  | none => exact (List.mem_insertionSort candKeyGE).mp hc
  | some forced => exact hc

theorem candidate_spec {flags : FlagSet} {engines : List Engine}
    {force : Option (List Engine)} {c : Candidate}
    (hc : c ∈ buildFallbackList flags engines force) :
    c.engine ∈ currentEngines engines force ∧
      priorityThreshold flags ≤ supportScore c.engine flags ∧
      c = mkCandidate flags c.engine := by
  obtain ⟨e, he, hthr, rfl⟩ := mem_selectEligible.mp
    (mem_applyQualityDominance (mem_buildFallbackList hc))
  exact ⟨he, hthr, rfl⟩

theorem map_engine_selectEligible_sublist (flags : FlagSet) :
    ∀ engines : List Engine,
      ((selectEligible flags engines).map Candidate.engine).Sublist
        engines := by
  intro engines
  induction engines with
  | nil => simp [selectEligible]
  | cons e engines ih =>
    rw [selectEligible, List.filterMap_cons]
    split
    · exact ih.cons e
    · next heq =>
      rw [if_pos (by
        by_contra hlt
        simp [if_neg hlt] at heq)] at heq
      cases heq
      exact ih.cons₂ e

theorem sum_filter_split {α : Type} (w : α → Nat) (p s : α → Bool)
    (l : List α) :
    ((l.filter fun a => p a && s a).map w).sum
      + ((l.filter fun a => p a && !(s a)).map w).sum
      = ((l.filter p).map w).sum := by
  induction l with
  | nil => rfl
  | cons a l ih =>
    cases hp : p a <;> cases hs : s a <;>
      simp [List.filter_cons, hp, hs] <;> omega

/-! ### Theorems for the frozen claims -/

/-- C1: every candidate returned by buildFallbackList has as its
supportScore the sum of the priority weights of exactly those required
flags its engine supports, and that score is at least the floor of half
the weighted sum of the required flags; no engine below the threshold
appears in the result. -/
theorem buildFallbackList_respects_threshold (flags : FlagSet)
    (engines : List Engine) (force : Option (List Engine)) (c : Candidate)
    (hc : c ∈ buildFallbackList flags engines force) :
    c.supportScore = supportScore c.engine flags ∧
      prioritySum flags / 2 ≤ c.supportScore := by
  obtain ⟨e, he, hthr, rfl⟩ := mem_selectEligible.mp
    (mem_applyQualityDominance (mem_buildFallbackList hc))
  exact ⟨rfl, hthr⟩

theorem buildFallbackList_respects_threshold_witness :
    (⟨.pdf, 100, []⟩ : Candidate).supportScore = supportScore .pdf pdfOnly ∧
      prioritySum pdfOnly / 2 ≤ (⟨.pdf, 100, []⟩ : Candidate).supportScore :=
  buildFallbackList_respects_threshold pdfOnly [.pdf] none _ (by decide)

/-- C2: whenever some engine passing the support-score threshold has
positive quality, every candidate returned by buildFallbackList has
positive quality; non-positive-quality candidates survive only when no
positive-quality engine passes the threshold. -/
theorem buildFallbackList_quality_dominance (flags : FlagSet)
    (engines : List Engine) (force : Option (List Engine))
    (hpos : ∃ c ∈ selectEligible flags (currentEngines engines force),
      0 < engineQuality c.engine)
    (c : Candidate) (hc : c ∈ buildFallbackList flags engines force) :
    0 < engineQuality c.engine := by
  have hmem : c ∈ applyQualityDominance
      (selectEligible flags (currentEngines engines force)) :=
    mem_buildFallbackList hc
  obtain ⟨c', hc', hq'⟩ := hpos
  unfold applyQualityDominance at hmem
  rw [if_pos (List.any_eq_true.mpr ⟨c', hc', decide_eq_true hq'⟩)] at hmem
  exact of_decide_eq_true (List.mem_filter.mp hmem).2

theorem buildFallbackList_quality_dominance_witness :
    0 < engineQuality (⟨.fetch, 0, []⟩ : Candidate).engine :=
  buildFallbackList_quality_dominance emptyFlags [.fetch, .pdf] none
    ⟨⟨.fetch, 0, []⟩, by decide, by decide⟩ _ (by decide)

/-- C3: with no forced engine, buildFallbackList returns a permutation of
the threshold- and dominance-filtered candidates (whose engines are in
registry order, being a sublist of the engine list), sorted by descending
supportScore with ties broken by descending quality, and candidates equal
on both keys keep their original relative order. -/
theorem buildFallbackList_sorted (flags : FlagSet) (engines : List Engine) :
    ((applyQualityDominance (selectEligible flags engines)).map
        Candidate.engine).Sublist engines ∧
      (buildFallbackList flags engines none).Perm
        (applyQualityDominance (selectEligible flags engines)) ∧
      (buildFallbackList flags engines none).Pairwise candKeyGE ∧
      (∀ a b : Candidate, a.supportScore = b.supportScore →
        engineQuality a.engine = engineQuality b.engine →
        [a, b].Sublist (applyQualityDominance (selectEligible flags engines)) →
        [a, b].Sublist (buildFallbackList flags engines none)) :=
  ⟨((sublist_applyQualityDominance _).map Candidate.engine).trans
      (map_engine_selectEligible_sublist flags engines),
   List.perm_insertionSort candKeyGE _,
   List.sorted_insertionSort candKeyGE _,
   fun _ _ hs hq hsub =>
     List.pair_sublist_insertionSort
       (Or.inr ⟨hs, Int.le_of_eq hq.symm⟩) hsub⟩

theorem buildFallbackList_sorted_witness :
    [(⟨.pdf, 0, []⟩ : Candidate), ⟨.docx, 0, []⟩].Sublist
      (buildFallbackList emptyFlags [.pdf, .docx] none) :=
  (buildFallbackList_sorted emptyFlags [.pdf, .docx]).2.2.2
    ⟨.pdf, 0, []⟩ ⟨.docx, 0, []⟩ rfl rfl (by decide)

/-- C4: with a forced engine list, buildFallbackList keeps the threshold
filter — an engine whose support score is below the threshold never
appears, forced or not — and the surviving candidates appear in exactly
the caller-specified order (their engine sequence is a sublist of the
forced list, which is never re-sorted). -/
theorem buildFallbackList_forced_order (flags : FlagSet)
    (engines forced : List Engine) :
    ((buildFallbackList flags engines (some forced)).map
        Candidate.engine).Sublist forced ∧
      (∀ c ∈ buildFallbackList flags engines (some forced),
        prioritySum flags / 2 ≤ c.supportScore) ∧
      (∀ e : Engine, supportScore e flags < prioritySum flags / 2 →
        e ∉ (buildFallbackList flags engines (some forced)).map
          Candidate.engine) := by
  refine ⟨?_, ?_, ?_⟩
  · have h1 : (buildFallbackList flags engines (some forced)).Sublist
        (selectEligible flags forced) :=
      sublist_applyQualityDominance _
    exact (h1.map Candidate.engine).trans
      (map_engine_selectEligible_sublist flags forced)
  · intro c hc
    obtain ⟨e, he, hthr, rfl⟩ := mem_selectEligible.mp
      (mem_applyQualityDominance (mem_buildFallbackList hc))
    exact hthr
  · intro e hlt hmem
    obtain ⟨c, hc, rfl⟩ := List.mem_map.mp hmem
    obtain ⟨e', he', hthr, rfl⟩ := mem_selectEligible.mp
      (mem_applyQualityDominance (mem_buildFallbackList hc))
    exact absurd hthr (Nat.not_le.mpr hlt)

theorem buildFallbackList_forced_order_witness :
    prioritySum pdfOnly / 2 ≤ (⟨.pdf, 100, []⟩ : Candidate).supportScore ∧
      Engine.fetch ∉ (buildFallbackList pdfOnly []
        (some [.pdf, .fetch])).map Candidate.engine :=
  ⟨(buildFallbackList_forced_order pdfOnly [] [.pdf, .fetch]).2.1 _ (by decide),
   (buildFallbackList_forced_order pdfOnly [] [.pdf, .fetch]).2.2 .fetch
     (by decide)⟩

theorem selectEligible_emptyFlags (engines : List Engine) :
    selectEligible emptyFlags engines
      = engines.map (mkCandidate emptyFlags) := by
  induction engines with
  | nil => rfl
  | cons e engines ih =>
    have hcond : priorityThreshold emptyFlags ≤ supportScore e emptyFlags :=
      Nat.le_refl 0
    unfold selectEligible at ih ⊢
    rw [List.filterMap_cons, List.map_cons, if_pos hcond, ih]

theorem map_engine_applyQualityDominance (flags : FlagSet)
    (engines : List Engine) :
    (applyQualityDominance (engines.map (mkCandidate flags))).map
        Candidate.engine
      = if engines.any (fun e => 0 < engineQuality e)
        then engines.filter (fun e => 0 < engineQuality e)
        else engines := by
  have hmapid : ∀ l : List Engine,
      (l.map (mkCandidate flags)).map Candidate.engine = l := by
    intro l
    induction l with
    | nil => rfl
    | cons e l ih =>
      rw [List.map_cons, List.map_cons, ih]
      rfl
  have hany : ∀ l : List Engine,
      ((l.map (mkCandidate flags)).any fun c => 0 < engineQuality c.engine)
        = l.any fun e => 0 < engineQuality e := by
    intro l
    induction l with
    | nil => rfl
    | cons e l ih =>
      rw [List.map_cons, List.any_cons, List.any_cons, ih]
      rfl
  have hfilter : ∀ l : List Engine,
      (((l.map (mkCandidate flags)).filter
          fun c => 0 < engineQuality c.engine).map Candidate.engine)
        = l.filter fun e => 0 < engineQuality e := by
    intro l
    induction l with
    | nil => rfl
    | cons e l ih =>
      by_cases h : 0 < engineQuality e
      · simp [List.filter_cons, mkCandidate, h, ih]
      · simp [List.filter_cons, mkCandidate, h, ih]
  unfold applyQualityDominance
  rw [hany]
  by_cases h : engines.any (fun e => 0 < engineQuality e)
  · rw [if_pos h, if_pos h, hfilter]
  · rw [if_neg h, if_neg h, hmapid]

/-- C5 is refuted: with an empty required-flag set every engine passes the
threshold, but the positive-quality dominance rule still drops
non-positive-quality engines when a positive-quality engine is present, so
not all engines of the registry are returned. -/
theorem buildFallbackList_empty_flags_cex :
    Engine.pdf ∈ ([.fetch, .pdf] : List Engine) ∧
      Engine.pdf ∉ (buildFallbackList emptyFlags [.fetch, .pdf] none).map
        Candidate.engine := by decide

/-- C5 (amended): with an empty required-flag set, buildFallbackList
returns all engines of the candidate list that survive the
positive-quality dominance rule — all of them when no engine has positive
quality, else exactly the positive-quality ones — ordered purely by
descending quality. -/
theorem buildFallbackList_empty_flags (engines : List Engine) :
    ((buildFallbackList emptyFlags engines none).map Candidate.engine).Perm
        (if engines.any (fun e => 0 < engineQuality e)
          then engines.filter (fun e => 0 < engineQuality e)
          else engines) ∧
      (buildFallbackList emptyFlags engines none).Pairwise
        (fun a b => engineQuality b.engine ≤ engineQuality a.engine) := by
  constructor
  · have hperm : (buildFallbackList emptyFlags engines none).Perm
        (applyQualityDominance (selectEligible emptyFlags engines)) :=
      List.perm_insertionSort candKeyGE _
    refine (hperm.map Candidate.engine).trans ?_
    rw [selectEligible_emptyFlags, map_engine_applyQualityDominance]
  · have hsorted := List.sorted_insertionSort candKeyGE
      (applyQualityDominance (selectEligible emptyFlags engines))
    have hmem0 : ∀ c ∈ buildFallbackList emptyFlags engines none,
        c.supportScore = 0 := by
      intro c hc
      obtain ⟨e, he, hthr, rfl⟩ := mem_selectEligible.mp
        (mem_applyQualityDominance (mem_buildFallbackList hc))
      rfl
    exact List.Pairwise.imp_of_mem
      (fun ha hb hr => by
        rcases hr with h | ⟨-, h⟩
        · rw [hmem0 _ ha, hmem0 _ hb] at h
          exact absurd h (lt_irrefl 0)
        · exact h)
      hsorted

/-- C6 is refuted: with the non-empty required set containing exactly the
waitFor flag (weight 1), the threshold is floor(1/2) = 0, so an engine
supporting none of the required flags (supportScore 0) still qualifies. -/
theorem zero_score_candidate_cex :
    waitForOnly FeatureFlag.waitFor = true ∧
      (⟨.fireEngineTlsclient, 0, [.waitFor]⟩ : Candidate) ∈
        buildFallbackList waitForOnly [.fireEngineTlsclient] none := by
  decide

/-- C6 (amended): a candidate with supportScore 0 appears in the result of
buildFallbackList only when the weighted priority sum of the required
flags is at most 1 (so the floored threshold is 0) — with non-empty
required flags this happens exactly when the only required flag is the
weight-1 waitFor flag. -/
theorem zero_score_candidate_prioritySum_le_one (flags : FlagSet)
    (engines : List Engine) (force : Option (List Engine)) (c : Candidate)
    (hc : c ∈ buildFallbackList flags engines force)
    (hzero : c.supportScore = 0) : prioritySum flags ≤ 1 := by
  obtain ⟨e, he, hthr, rfl⟩ := mem_selectEligible.mp
    (mem_applyQualityDominance (mem_buildFallbackList hc))
  unfold priorityThreshold at hthr
  have h0 : supportScore e flags = 0 := hzero
  omega

theorem zero_score_candidate_prioritySum_le_one_witness :
    prioritySum waitForOnly ≤ 1 :=
  zero_score_candidate_prioritySum_le_one waitForOnly [.fireEngineTlsclient]
    none ⟨.fireEngineTlsclient, 0, [.waitFor]⟩ (by decide) rfl

/-- C9: every returned candidate's unsupportedFeatures set contains exactly
the required flags its engine does not support (hence is a subset of the
required set), and its supportScore plus the weights of its unsupported
features equals the total weighted sum of the required flags. -/
theorem buildFallbackList_unsupported_spec (flags : FlagSet)
    (engines : List Engine) (force : Option (List Engine)) (c : Candidate)
    (hc : c ∈ buildFallbackList flags engines force) (f : FeatureFlag) :
    (f ∈ c.unsupportedFeatures ↔
        flags f = true ∧ engineSupports c.engine f = false) ∧
      c.supportScore + (c.unsupportedFeatures.map priority).sum
        = prioritySum flags := by
  obtain ⟨e, he, hthr, rfl⟩ := mem_selectEligible.mp
    (mem_applyQualityDominance (mem_buildFallbackList hc))
  constructor
  · simp [mkCandidate, unsupportedFeatures, List.mem_filter, mem_allFlags f]
  · exact sum_filter_split priority flags (engineSupports e) allFlags

theorem buildFallbackList_unsupported_spec_witness :
    (FeatureFlag.actions ∈
          (⟨.pdf, 100, [.actions]⟩ : Candidate).unsupportedFeatures ↔
        actionsPdfFlags FeatureFlag.actions = true ∧
          engineSupports (⟨.pdf, 100, [.actions]⟩ : Candidate).engine
              .actions
            = false) ∧
      (⟨.pdf, 100, [.actions]⟩ : Candidate).supportScore
          + (((⟨.pdf, 100, [.actions]⟩ : Candidate).unsupportedFeatures).map
              priority).sum
        = prioritySum actionsPdfFlags :=
  buildFallbackList_unsupported_spec actionsPdfFlags [.pdf] none _
    (by decide) .actions

/-- C7: the MRT dispatch applies the registered engine-specific
max-reasonable-time function to the request when one exists, and for an
engine with no registered function it emits the warning and substitutes
the conservative 30000 ms fallback. -/
theorem getEngineMaxReasonableTime_spec
    (engineMRTs : Engine → Option (MRTMeta → Nat)) (meta : MRTMeta)
    (engine : Engine) :
    (∀ mrt, engineMRTs engine = some mrt →
        getEngineMaxReasonableTime engineMRTs meta engine
          = ⟨mrt meta, false⟩) ∧
      (engineMRTs engine = none →
        getEngineMaxReasonableTime engineMRTs meta engine
          = ⟨30000, true⟩) := by
  constructor
  · intro mrt h
    unfold getEngineMaxReasonableTime
    rw [h]
  · intro h
    unfold getEngineMaxReasonableTime
    rw [h]

theorem getEngineMaxReasonableTime_spec_witness :
    getEngineMaxReasonableTime pwOnlyMRTs ⟨some 5000⟩ .playwright
        = ⟨35000, false⟩ ∧
      getEngineMaxReasonableTime pwOnlyMRTs ⟨some 5000⟩ .fetch
        = ⟨30000, true⟩ :=
  ⟨((getEngineMaxReasonableTime_spec pwOnlyMRTs ⟨some 5000⟩ .playwright).1
      playwrightMaxReasonableTime rfl).trans rfl,
   (getEngineMaxReasonableTime_spec pwOnlyMRTs ⟨some 5000⟩ .fetch).2 rfl⟩

theorem getError_not_empty (status : Option Int) :
    (getError status).isEmpty = false := by
  unfold getError
  split <;> rfl

/-- C8: a completed scrape of the playwright microservice carries a
pageError exactly when the obtained page status is not 200; on a 200
status the pageError field is absent. -/
theorem scrape_pageError_iff (result : PageResult) :
    ((finalizeScrapeResult result).pageError.isSome ↔
        result.status ≠ some 200) ∧
      (result.status = some 200 →
        (finalizeScrapeResult result).pageError = none) := by
  constructor
  · by_cases h : result.status = some 200
    · simp [finalizeScrapeResult, h]
    · simp [finalizeScrapeResult, h, getError_not_empty]
  · intro h
    simp [finalizeScrapeResult, h]

theorem scrape_pageError_iff_witness :
    (finalizeScrapeResult ⟨"ok", some 200, none⟩).pageError = none ∧
      ((finalizeScrapeResult ⟨"err", some 404, none⟩).pageError.isSome ↔
        (some 404 : Option Int) ≠ some 200) :=
  ⟨(scrape_pageError_iff ⟨"ok", some 200, none⟩).2 rfl,
   (scrape_pageError_iff ⟨"err", some 404, none⟩).1⟩

/-- C10: the playwright engine adapter always reports the basic proxy tier
in its result, while the stealthProxy feature flag is forwarded to the
microservice only as the mobileProxy request option. -/
theorem scrapeURLWithPlaywright_proxyUsed (meta : PlaywrightMeta)
    (response : PlaywrightScrapeResponse) :
    (scrapeURLWithPlaywright meta response).proxyUsed = ProxyTier.basic ∧
      (buildPlaywrightRequest meta).mobileProxy
        = meta.featureFlags FeatureFlag.stealthProxy :=
  ⟨rfl, rfl⟩

end Firecrawl
